import Mathlib

/-
Verification of the DBSim 3D visualization core.

The definitions below are a shallow embedding of the JavaScript source:

* `calculateElectrodePosition` embeds the function of the same name in
  `src/frontend/src/App.jsx` (the Three.js visualization component).
  JavaScript numbers are modelled as rationals; the JS idiom
  `params.frequency || 130` (replace a zero/falsy numeric value by the
  default) is modelled by `orDefault`.
* The orbit-control handlers (`onMouseMove`, `onMouseDown`, `onMouseUp`,
  `onWheel`) and the rotation-smoothing step `updateRotation` embed the
  closures installed by `addOrbitControls` in the same file.
* The trace builders (`createTissueTrace`, `createFieldTrace`,
  `createElectrodeTrace`) and `renderVisualization` embed
  `src/frontend/src/components/BrainVisualization.jsx`.  A JS value that
  may be `undefined`/`null` is an `Option`; an early `return` with no plot
  is `none`; `Math.max(...xs)` on an empty list (which yields `-Infinity`
  in JS) is `List.maximum`, whose empty-list value is `⊥` in `WithBot ℚ`.
-/

namespace DBSim

/-- Stimulation parameters as read by `calculateElectrodePosition`:
`params.contact`, `params.frequency`, `params.amplitude`. -/
structure StimParams where
  contact : ℤ
  frequency : ℚ
  amplitude : ℚ
  deriving DecidableEq

/-- A 3D position `{ x, y, z }`. -/
structure Position3 where
  x : ℚ
  y : ℚ
  z : ℚ
  deriving DecidableEq

/-- The JS idiom `v || d` for a numeric `v`: a zero value falls back to
the default `d` (JS treats `0` as falsy). -/
def orDefault (v d : ℚ) : ℚ := if v = 0 then d else v

/-- The JS idiom `v || d` for an integer `v`. -/
def orDefaultZ (v d : ℤ) : ℤ := if v = 0 then d else v

/-- The `switch (contact)` table of `calculateElectrodePosition`:
four fixed anchors for contacts 0-3 and a mid-depth default branch. -/
def anchorPosition (contact : ℤ) : Position3 :=
  if contact = 0 then ⟨-8/10, -3/10, 2/10⟩
  else if contact = 1 then ⟨-6/10, -1/10, 3/10⟩
  else if contact = 2 then ⟨-4/10, 1/10, 4/10⟩
  else if contact = 3 then ⟨-2/10, 3/10, 5/10⟩
  else ⟨-6/10, 0, 3/10⟩

/-- `calculateElectrodePosition` from `App.jsx`: default the parameters
(`params.contact || 0`, `params.frequency || 130`,
`params.amplitude || 2.0`), look up the anchor for the contact, then
perturb `x += (frequency - 130) * 0.001` and
`y += (amplitude - 2.0) * 0.05`. -/
def calculateElectrodePosition (params : StimParams) : Position3 :=
  let contact := orDefaultZ params.contact 0
  let frequency := orDefault params.frequency 130
  let amplitude := orDefault params.amplitude 2
  let base := anchorPosition contact
  ⟨base.x + (frequency - 130) * (1/1000),
   base.y + (amplitude - 2) * (1/20),
   base.z⟩

/-- Squared Euclidean distance between two positions. -/
def distSq (p q : Position3) : ℚ :=
  (p.x - q.x) * (p.x - q.x) + (p.y - q.y) * (p.y - q.y) + (p.z - q.z) * (p.z - q.z)

/-- C5: the electrode position mapper is deterministic: two calls with
equal `(contact, frequency, amplitude)` arguments return the identical
`(x, y, z)` position.  In the embedding the function is pure by
construction, exactly as the source body reads only its argument. -/
theorem calculateElectrodePosition_deterministic (p q : StimParams) (h : p = q) :
    calculateElectrodePosition p = calculateElectrodePosition q := by
  rw [h]

theorem calculateElectrodePosition_deterministic_witness :
    (⟨0, 130, 2⟩ : StimParams) = ⟨0, 130, 2⟩ ∧
    calculateElectrodePosition ⟨0, 130, 2⟩ = calculateElectrodePosition ⟨0, 130, 2⟩ :=
  ⟨rfl, calculateElectrodePosition_deterministic ⟨0, 130, 2⟩ ⟨0, 130, 2⟩ rfl⟩

/-- C6: with frequency 130 and amplitude 2.0 both perturbation terms are
zero and the four contacts map to four pairwise-distinct positions. -/
theorem electrodePosition_pairwise_distinct :
    calculateElectrodePosition ⟨0, 130, 2⟩ ≠ calculateElectrodePosition ⟨1, 130, 2⟩ ∧
    calculateElectrodePosition ⟨0, 130, 2⟩ ≠ calculateElectrodePosition ⟨2, 130, 2⟩ ∧
    calculateElectrodePosition ⟨0, 130, 2⟩ ≠ calculateElectrodePosition ⟨3, 130, 2⟩ ∧
    calculateElectrodePosition ⟨1, 130, 2⟩ ≠ calculateElectrodePosition ⟨2, 130, 2⟩ ∧
    calculateElectrodePosition ⟨1, 130, 2⟩ ≠ calculateElectrodePosition ⟨3, 130, 2⟩ ∧
    calculateElectrodePosition ⟨2, 130, 2⟩ ≠ calculateElectrodePosition ⟨3, 130, 2⟩ := by
  refine ⟨?_, ?_, ?_, ?_, ?_, ?_⟩ <;>
    norm_num [calculateElectrodePosition, anchorPosition, orDefault, orDefaultZ,
      Position3.mk.injEq]

/-- C9: a zero-valued frequency is replaced by the default 130 and a
zero-valued amplitude by the default 2.0 before the perturbation is
computed, so `position(c, 0, a) = position(c, 130, a)` and
`position(c, f, 0) = position(c, f, 2.0)`. -/
theorem electrodePosition_zero_defaults (c : ℤ) (f a : ℚ) :
    calculateElectrodePosition ⟨c, 0, a⟩ = calculateElectrodePosition ⟨c, 130, a⟩ ∧
    calculateElectrodePosition ⟨c, f, 0⟩ = calculateElectrodePosition ⟨c, f, 2⟩ := by
  constructor <;> norm_num [calculateElectrodePosition, orDefault, Position3.mk.injEq]

/-- C2 counterexample: with contact 0, frequency 130 and amplitude 10 -
all inside the slider ranges [1, 250] Hz and [0.1, 10.0] mA - the
perturbed position is strictly closer to contact 1's anchor than to its
own anchor, so the perturbation does cross an anchor boundary. -/
theorem electrodePosition_crosses_boundary :
    ((1 : ℚ) ≤ 130 ∧ (130 : ℚ) ≤ 250 ∧ (1 : ℚ)/10 ≤ 10 ∧ (10 : ℚ) ≤ 10) ∧
    distSq (calculateElectrodePosition ⟨0, 130, 10⟩) (anchorPosition 1) <
      distSq (calculateElectrodePosition ⟨0, 130, 10⟩) (anchorPosition 0) := by
  norm_num [calculateElectrodePosition, anchorPosition, orDefault, orDefaultZ, distSq]

/-- C2 (amended): for amplitudes up to 4.0 mA (instead of the full
slider range up to 10.0 mA) and the full frequency range [1, 250] Hz,
the perturbed position of every contact stays strictly closer to its own
anchor than to any other contact's anchor. -/
theorem electrodePosition_within_anchor_region
    (c c' : ℤ) (f a : ℚ)
    (hc0 : 0 ≤ c) (hc3 : c ≤ 3) (hc'0 : 0 ≤ c') (hc'3 : c' ≤ 3) (hne : c' ≠ c)
    (hf1 : 1 ≤ f) (hf2 : f ≤ 250) (ha1 : 1/10 ≤ a) (ha2 : a ≤ 4) :
    distSq (calculateElectrodePosition ⟨c, f, a⟩) (anchorPosition c) <
      distSq (calculateElectrodePosition ⟨c, f, a⟩) (anchorPosition c') := by
  have hf0 : f ≠ 0 := by intro h; rw [h] at hf1; norm_num at hf1
  have ha0 : a ≠ 0 := by intro h; rw [h] at ha1; norm_num at ha1
  interval_cases c <;> interval_cases c' <;>
    simp_all [calculateElectrodePosition, anchorPosition, orDefault, orDefaultZ, distSq] <;>
    nlinarith [sq_nonneg (f - 130), sq_nonneg (a - 2)]

theorem electrodePosition_within_anchor_region_witness :
    distSq (calculateElectrodePosition ⟨0, 130, 2⟩) (anchorPosition 0) <
      distSq (calculateElectrodePosition ⟨0, 130, 2⟩) (anchorPosition 1) :=
  electrodePosition_within_anchor_region 0 1 130 2
    (by norm_num) (by norm_num) (by norm_num) (by norm_num) (by norm_num)
    (by norm_num) (by norm_num) (by norm_num) (by norm_num)

/-- The mutable closure state of `addOrbitControls` in `App.jsx`:
`isMouseDown`, `mouseX`, `mouseY`, `targetRotationX`, `targetRotationY`. -/
structure OrbitState where
  isMouseDown : Bool
  mouseX : ℚ
  mouseY : ℚ
  targetRotationX : ℚ
  targetRotationY : ℚ
  deriving DecidableEq

/-- The `onMouseMove` handler: if the button is not down it returns at
once; otherwise it accumulates `target rotation += delta * 0.01` and
stores the pointer coordinates. -/
def onMouseMove (s : OrbitState) (clientX clientY : ℚ) : OrbitState :=
  if s.isMouseDown then
    { s with
      targetRotationY := s.targetRotationY + (clientX - s.mouseX) * (1/100),
      targetRotationX := s.targetRotationX + (clientY - s.mouseY) * (1/100),
      mouseX := clientX,
      mouseY := clientY }
  else s

/-- The `onMouseDown` handler: start a drag at the pointer position. -/
def onMouseDown (s : OrbitState) (clientX clientY : ℚ) : OrbitState :=
  { s with isMouseDown := true, mouseX := clientX, mouseY := clientY }

/-- The `onMouseUp` handler: end the drag. -/
def onMouseUp (s : OrbitState) : OrbitState :=
  { s with isMouseDown := false }

/-- The `onWheel` handler acting on the camera's z position:
`z += deltaY * 0.01` followed by `z = Math.max(2, Math.min(10, z))`. -/
def onWheel (z deltaY : ℚ) : ℚ :=
  max 2 (min 10 (z + deltaY * (1/100)))

/-- A pointer event dispatched to the orbit-control handlers. -/
inductive PointerEvent where
  | mousemove (clientX clientY : ℚ)
  | mousedown (clientX clientY : ℚ)
  | mouseup
  deriving DecidableEq

/-- Dispatch one pointer event to the matching handler. -/
def stepEvent (s : OrbitState) : PointerEvent → OrbitState
  | .mousemove x y => onMouseMove s x y
  | .mousedown x y => onMouseDown s x y
  | .mouseup => onMouseUp s

/-- The closure state as first installed by `addOrbitControls`:
`isMouseDown = false`, all coordinates and rotation targets zero. -/
def initOrbitState : OrbitState := ⟨false, 0, 0, 0, 0⟩

/-- The orbit-control state after a sequence of pointer events. -/
def runEvents (evs : List PointerEvent) : OrbitState :=
  evs.foldl stepEvent initOrbitState

/-- C7: after a wheel event the camera z position lies in [2, 10], for
every starting z in [2, 10] and every wheel delta (the handler clamps
unconditionally). -/
theorem onWheel_zoom_bounds (z deltaY : ℚ) (h1 : 2 ≤ z) (h2 : z ≤ 10) :
    2 ≤ onWheel z deltaY ∧ onWheel z deltaY ≤ 10 := by
  unfold onWheel
  exact ⟨le_max_left _ _, max_le (by norm_num) (min_le_left _ _)⟩

theorem onWheel_zoom_bounds_witness :
    ((2 : ℚ) ≤ 5 ∧ (5 : ℚ) ≤ 10) ∧ 2 ≤ onWheel 5 300 ∧ onWheel 5 300 ≤ 10 :=
  ⟨⟨by norm_num, by norm_num⟩, onWheel_zoom_bounds 5 300 (by norm_num) (by norm_num)⟩

/-- C10: a mousemove processed while no drag is in progress leaves the
interaction state entirely unchanged, after every sequence of prior
events and for every pointer position. -/
theorem onMouseMove_noDrag_frame (evs : List PointerEvent) (x y : ℚ)
    (h : (runEvents evs).isMouseDown = false) :
    onMouseMove (runEvents evs) x y = runEvents evs := by
  unfold onMouseMove
  rw [h]
  simp

theorem onMouseMove_noDrag_frame_witness :
    (runEvents [PointerEvent.mousedown 1 2, PointerEvent.mouseup]).isMouseDown = false ∧
    onMouseMove (runEvents [PointerEvent.mousedown 1 2, PointerEvent.mouseup]) 5 7 =
      runEvents [PointerEvent.mousedown 1 2, PointerEvent.mouseup] :=
  ⟨rfl, onMouseMove_noDrag_frame [PointerEvent.mousedown 1 2, PointerEvent.mouseup] 5 7 rfl⟩

/-- The rotation state used by `updateRotation` and the animation loop:
the drag targets, the smoothed rotation, and the rotation currently
applied to the root brain group (absent while `brainRef.current` is
null). -/
structure RotationState where
  targetRotationX : ℚ
  targetRotationY : ℚ
  rotationX : ℚ
  rotationY : ℚ
  brainRotation : Option (ℚ × ℚ)
  deriving DecidableEq

/-- `updateRotation` from `addOrbitControls`: exponential smoothing
`rotation += (target - rotation) * 0.1` on both axes, then the smoothed
rotation is written to the brain group's transform when it exists. -/
def updateRotation (s : RotationState) : RotationState :=
  let rx := s.rotationX + (s.targetRotationX - s.rotationX) * (1/10)
  let ry := s.rotationY + (s.targetRotationY - s.rotationY) * (1/10)
  { s with
    rotationX := rx,
    rotationY := ry,
    brainRotation := match s.brainRotation with
      | some _ => some (rx, ry)
      | none => none }

/-- One tick of `animate`: it invokes `renderer.updateRotation` and then
renders; rendering reads but never writes the rotation state, so the
state transition of a tick is exactly `updateRotation`. -/
def animateTick (s : RotationState) : RotationState := updateRotation s

/-- C8: every animation tick updates the rotation by exactly
`rotation += (target - rotation) * 0.1` on both axes, leaves the targets
untouched, and applies the resulting smoothed rotation (not the raw
target) to the brain transform whenever the brain group exists. -/
theorem animateTick_smoothing (s : RotationState) :
    (animateTick s).rotationX = s.rotationX + (s.targetRotationX - s.rotationX) * (1/10) ∧
    (animateTick s).rotationY = s.rotationY + (s.targetRotationY - s.rotationY) * (1/10) ∧
    (animateTick s).targetRotationX = s.targetRotationX ∧
    (animateTick s).targetRotationY = s.targetRotationY ∧
    (s.brainRotation.isSome →
      (animateTick s).brainRotation =
        some ((animateTick s).rotationX, (animateTick s).rotationY)) := by
  refine ⟨rfl, rfl, rfl, rfl, fun h => ?_⟩
  unfold animateTick updateRotation
  match hb : s.brainRotation with
  | some p => simp
  | none => rw [hb] at h; simp at h

theorem animateTick_smoothing_witness :
    (RotationState.mk 1 2 0 0 (some (0, 0))).brainRotation.isSome = true ∧
    (animateTick ⟨1, 2, 0, 0, some (0, 0)⟩).rotationX =
      0 + (1 - 0) * (1/10) ∧
    (animateTick ⟨1, 2, 0, 0, some (0, 0)⟩).brainRotation =
      some ((animateTick ⟨1, 2, 0, 0, some (0, 0)⟩).rotationX,
            (animateTick ⟨1, 2, 0, 0, some (0, 0)⟩).rotationY) :=
  ⟨rfl, (animateTick_smoothing ⟨1, 2, 0, 0, some (0, 0)⟩).1,
    (animateTick_smoothing ⟨1, 2, 0, 0, some (0, 0)⟩).2.2.2.2 rfl⟩

/-- The `field_data` part of the simulation payload; each property may
be absent (`undefined` in JS). -/
structure FieldData where
  x_coords : Option (List ℚ)
  y_coords : Option (List ℚ)
  z_coords : Option (List ℚ)
  field_magnitude : Option (List (List (List ℚ)))
  deriving DecidableEq

/-- The `tissue_data` part of the simulation payload. -/
structure TissueData where
  x_coords : Option (List ℚ)
  y_coords : Option (List ℚ)
  z_coords : Option (List ℚ)
  tissue_type : Option (List (List (List ℤ)))
  physical_size : List ℚ
  deriving DecidableEq

/-- One electrode contact descriptor `{ position: [x,y,z], is_active }`. -/
structure Contact where
  position : ℚ × ℚ × ℚ
  is_active : Bool
  deriving DecidableEq

/-- The `electrode_data` part of the simulation payload. -/
structure ElectrodeData where
  contacts : Option (List Contact)
  electrode_position : Option (List ℚ)
  deriving DecidableEq

/-- The whole simulation payload destructured by `renderVisualization`. -/
structure SimulationData where
  field_data : Option FieldData
  tissue_data : Option TissueData
  electrode_data : Option ElectrodeData
  deriving DecidableEq

/-- The isosurface trace descriptor built by `createTissueTrace`. -/
structure TissueTrace where
  x : List ℚ
  y : List ℚ
  z : List ℚ
  value : List (List (List ℤ))
  isomin : ℚ
  isomax : ℚ
  surfaceCount : ℕ
  colorscale : List (ℚ × String)
  opacity : ℚ
  name : String
  deriving DecidableEq

/-- The volume trace descriptor built by `createFieldTrace`.  The
coordinate arrays are copied through unchecked (they may be absent), and
`isomax` lives in `WithBot ℚ` because `Math.max` of an empty spread is
`-Infinity`. -/
structure FieldTrace where
  x : Option (List ℚ)
  y : Option (List ℚ)
  z : Option (List ℚ)
  value : List (List (List ℚ))
  isomin : ℚ
  isomax : WithBot ℚ
  surface_count : ℕ
  colorscale : List (ℚ × String)
  opacity : ℚ
  name : String
  deriving DecidableEq

/-- The scatter trace descriptor built by `createElectrodeTrace`. -/
structure ElectrodeTrace where
  x : List ℚ
  y : List ℚ
  z : List ℚ
  colors : List String
  sizes : List ℕ
  name : String
  deriving DecidableEq

/-- A trace descriptor handed to Plotly. -/
inductive Trace where
  | tissue (t : TissueTrace)
  | field (t : FieldTrace)
  | electrode (t : ElectrodeTrace)
  deriving DecidableEq

/-- `createTissueTrace` from `BrainVisualization.jsx`: returns `null`
when any of `x_coords`, `y_coords`, `z_coords`, `tissue_type` is absent;
otherwise an isosurface trace with the fixed band thresholds and the
three-class colorscale.  (The surrounding try/catch never fires in this
total embedding.) -/
def createTissueTrace (tissueData : TissueData) : Option TissueTrace :=
  match tissueData.x_coords, tissueData.y_coords, tissueData.z_coords,
      tissueData.tissue_type with
  | some xs, some ys, some zs, some tt =>
      some { x := xs, y := ys, z := zs, value := tt,
             isomin := 1/2, isomax := 5/2, surfaceCount := 3,
             colorscale := [(0, "#e8f4fd"), (1/2, "#fff2cc"), (1, "#ffe6e6")],
             opacity := 3/10, name := "Brain Tissue" }
  | _, _, _, _ => none

/-- `createFieldTrace` from `BrainVisualization.jsx`: returns `null`
when `field_magnitude` is absent or its outer array has length 0;
flattens the tensor with `flat(3)`, takes `maxField = Math.max(...)`
(which is `-Infinity`, here `⊥`, on an empty flattened list); returns
`null` when `maxField === 0`; otherwise builds the volume trace with
`isomin = threshold`, `isomax = maxField` and `surface_count: 5`. -/
def createFieldTrace (fieldData : FieldData) (threshold : ℚ) : Option FieldTrace :=
  match fieldData.field_magnitude with
  | none => none
  | some fm =>
    if fm.length = 0 then none
    else
      let flatField := fm.flatten.flatten
      let maxField := flatField.maximum
      if maxField = (0 : WithBot ℚ) then none
      else
        some { x := fieldData.x_coords, y := fieldData.y_coords, z := fieldData.z_coords,
               value := fm, isomin := threshold, isomax := maxField,
               surface_count := 5,
               colorscale := [(0, "rgba(0,0,255,0)"), (1/5, "rgba(0,100,255,0.3)"),
                 (2/5, "rgba(0,255,100,0.5)"), (3/5, "rgba(255,255,0,0.7)"),
                 (4/5, "rgba(255,100,0,0.8)"), (1, "rgba(255,0,0,0.9)")],
               opacity := 7/10, name := "Electric Field" }

/-- `createElectrodeTrace` from `BrainVisualization.jsx`: returns `null`
when `contacts` is absent or empty; otherwise a scatter trace with the
active contact drawn larger and in the highlight color. -/
def createElectrodeTrace (electrodeData : ElectrodeData) : Option ElectrodeTrace :=
  match electrodeData.contacts with
  | none => none
  | some contacts =>
    if contacts.length = 0 then none
    else
      some { x := contacts.map (fun c => c.position.1),
             y := contacts.map (fun c => c.position.2.1),
             z := contacts.map (fun c => c.position.2.2),
             colors := contacts.map (fun c => if c.is_active then "#ff0000" else "#888888"),
             sizes := contacts.map (fun c => if c.is_active then 12 else 8),
             name := "DBS Electrode" }

/-- `renderVisualization` from `BrainVisualization.jsx`, as the list of
traces handed to `Plotly.newPlot`.  `none` models an early return with
no plot: absent `simulationData`, or the missing-data guard
`if (!field_data || !tissue_data) return`.  Otherwise the tissue, field
and electrode builders run in order, each gated by the view mode or the
`showElectrode` flag, and a builder's `null` is simply skipped. -/
def renderVisualization (simulationData : Option SimulationData)
    (visualizationMode : String) (showElectrode : Bool) (fieldThreshold : ℚ) :
    Option (List Trace) :=
  match simulationData with
  | none => none
  | some sd =>
    match sd.field_data, sd.tissue_data with
    | some fd, some td =>
      let traces1 : List Trace :=
        if visualizationMode = "tissue" ∨ visualizationMode = "combined" then
          match createTissueTrace td with
          | some t => [Trace.tissue t]
          | none => []
        else []
      let traces2 : List Trace :=
        if visualizationMode = "field" ∨ visualizationMode = "combined" then
          match createFieldTrace fd fieldThreshold with
          | some t => traces1 ++ [Trace.field t]
          | none => traces1
        else traces1
      let traces3 : List Trace :=
        if showElectrode then
          match sd.electrode_data with
          | some ed =>
            match createElectrodeTrace ed with
            | some t => traces2 ++ [Trace.electrode t]
            | none => traces2
          | none => traces2
        else traces2
      some traces3
    | _, _ => none

/-- A well-formed 1x1x1 field payload with a single nonzero magnitude. -/
def exampleFieldData : FieldData :=
  { x_coords := some [0], y_coords := some [0], z_coords := some [0],
    field_magnitude := some [[[1]]] }

/-- A single-contact electrode payload. -/
def exampleElectrodeData : ElectrodeData :=
  { contacts := some [{ position := (1, 2, 3), is_active := true }],
    electrode_position := some [1, 2, 3] }

/-- A payload whose `tissue_data` is absent while `field_data` and
`electrode_data` are present. -/
def examplePayloadNoTissue : SimulationData :=
  { field_data := some exampleFieldData, tissue_data := none,
    electrode_data := some exampleElectrodeData }

/-- C1 counterexample: on a payload with `tissue_data` absent but
`field_data` and `electrode_data` present, in mode "combined" with
`showElectrode` true, `renderVisualization` takes the missing-data early
return and produces no traces at all - in particular no field trace and
no electrode trace, contradicting the claim. -/
theorem renderVisualization_no_tissue_counterexample :
    examplePayloadNoTissue.tissue_data = none ∧
    examplePayloadNoTissue.field_data ≠ none ∧
    examplePayloadNoTissue.electrode_data ≠ none ∧
    renderVisualization (some examplePayloadNoTissue) "combined" true (1/10) = none := by
  refine ⟨rfl, ?_, ?_, rfl⟩ <;> simp [examplePayloadNoTissue]

/-- C1 (amended): for every payload in which `tissue_data` is absent,
`renderVisualization` returns early with no traces, whatever the view
mode, the `showElectrode` flag and the threshold; no exception reaches
the caller (the embedding is a total function). -/
theorem renderVisualization_missing_tissue (sd : SimulationData) (mode : String)
    (se : Bool) (th : ℚ) (h : sd.tissue_data = none) :
    renderVisualization (some sd) mode se th = none := by
  rcases sd with ⟨f, t, e⟩
  cases h
  cases f <;> rfl

theorem renderVisualization_missing_tissue_witness :
    examplePayloadNoTissue.tissue_data = none ∧
    renderVisualization (some examplePayloadNoTissue) "field" false (1/2) = none :=
  ⟨rfl, renderVisualization_missing_tissue examplePayloadNoTissue "field" false (1/2) rfl⟩

/-- A field payload whose magnitude tensor `[[]]` has a nonempty outer
array but an empty flattened sequence (a 1x0 grid). -/
def emptyInnerFieldData : FieldData :=
  { x_coords := some [0], y_coords := some [], z_coords := some [0],
    field_magnitude := some [[]] }

/-- A field payload with no `field_magnitude` property at all. -/
def absentFieldData : FieldData :=
  { x_coords := none, y_coords := none, z_coords := none,
    field_magnitude := none }

/-- C3 counterexample: for the field payload whose magnitude tensor is
`[[]]` the flattened sequence is empty, yet `createFieldTrace` does
return a trace (the guard tests only the outer array's length, and
`Math.max()` of nothing is `-Infinity`, not 0), contradicting the claim
that an empty flattened sequence yields no trace. -/
theorem createFieldTrace_emptyFlat_counterexample :
    ([[]] : List (List (List ℚ))).flatten.flatten = [] ∧
    createFieldTrace emptyInnerFieldData (1/10) ≠ none := by
  refine ⟨rfl, ?_⟩
  simp [createFieldTrace, emptyInnerFieldData]

/-- C3 (amended): `createFieldTrace` returns no trace exactly when
`field_magnitude` is absent, when its outer array is empty, or when the
maximum of the flattened tensor equals 0; every trace it does return has
`isomin` equal to the current threshold and `isomax` equal to that
maximum (which is `⊥`, i.e. `-Infinity`, when the flattened sequence is
empty but the outer array is not). -/
theorem createFieldTrace_none_iff (fd : FieldData) (th : ℚ) :
    (createFieldTrace fd th = none ↔
      fd.field_magnitude = none ∨ fd.field_magnitude = some [] ∨
        (fd.field_magnitude.getD []).flatten.flatten.maximum = (0 : WithBot ℚ)) ∧
    ∀ t, createFieldTrace fd th = some t →
      t.isomin = th ∧ t.isomax = (fd.field_magnitude.getD []).flatten.flatten.maximum := by
  rcases fd with ⟨xs, ys, zs, fm⟩
  cases fm with
  | none => simp [createFieldTrace]
  | some m =>
    by_cases hm : m = []
    · subst hm
      simp [createFieldTrace]
    · have hml : ¬ m.length = 0 := fun h => hm (List.length_eq_zero.mp h)
      by_cases h0 : m.flatten.flatten.maximum = (0 : WithBot ℚ)
      · simp [createFieldTrace, hml, h0, hm]
      · constructor
        · simp [createFieldTrace, hml, h0, hm]
        · intro t ht
          simp [createFieldTrace, hml, h0] at ht
          rw [← ht]
          exact ⟨rfl, rfl⟩

theorem createFieldTrace_none_iff_witness :
    createFieldTrace absentFieldData (1/10) = none :=
  (createFieldTrace_none_iff absentFieldData (1/10)).1.mpr (Or.inl rfl)

/-- C4: every trace returned by `createFieldTrace` has the fixed
`surface_count` of 5 iso-levels, for every threshold in [0.01, 1.0]: the
threshold only sets `isomin`, never the level count. -/
theorem createFieldTrace_surface_count (fd : FieldData) (th : ℚ)
    (h1 : 1/100 ≤ th) (h2 : th ≤ 1) (t : FieldTrace)
    (ht : createFieldTrace fd th = some t) :
    t.surface_count = 5 := by
  rcases fd with ⟨xs, ys, zs, fm⟩
  cases fm with
  | none => simp [createFieldTrace] at ht
  | some m =>
    by_cases hml : m.length = 0
    · simp [createFieldTrace, hml] at ht
    · by_cases h0 : m.flatten.flatten.maximum = (0 : WithBot ℚ)
      · simp [createFieldTrace, hml, h0] at ht
      · simp [createFieldTrace, hml, h0] at ht
        rw [← ht]

/-- The trace value `createFieldTrace` returns on `exampleFieldData`
with threshold 0.1. -/
def exampleFieldTraceVal : FieldTrace :=
  { x := some [0], y := some [0], z := some [0], value := [[[1]]],
    isomin := 1/10, isomax := ((1 : ℚ) : WithBot ℚ), surface_count := 5,
    colorscale := [(0, "rgba(0,0,255,0)"), (1/5, "rgba(0,100,255,0.3)"),
      (2/5, "rgba(0,255,100,0.5)"), (3/5, "rgba(255,255,0,0.7)"),
      (4/5, "rgba(255,100,0,0.8)"), (1, "rgba(255,0,0,0.9)")],
    opacity := 7/10, name := "Electric Field" }

theorem createFieldTrace_surface_count_witness :
    ((1 : ℚ)/100 ≤ 1/10 ∧ (1 : ℚ)/10 ≤ 1) ∧ exampleFieldTraceVal.surface_count = 5 :=
  ⟨⟨by norm_num, by norm_num⟩,
    createFieldTrace_surface_count exampleFieldData (1/10) (by norm_num) (by norm_num)
      exampleFieldTraceVal
      (by simp [createFieldTrace, exampleFieldData, exampleFieldTraceVal,
        List.maximum_singleton])⟩

end DBSim
